import Mathlib

/-!
# Verification of the FactState multi-layer risk scoring engine

A shallow embedding of the scoring core of the FactState repository:

* `app/services/risk_rules.py` — the safety gate (`apply_safety_gates`,
  `_is_verified_host`, `_host_tokens`, the badge order and the phishing
  token vocabulary);
* `app/services/scoring.py` — the aggregator (`evaluate_all`: the
  cross-layer correlation rule, the weighted sum, the gate call) and the
  orchestrator's timeout wrapper (`_with_timeout`);
* `app/routers/site.py` — the `check_site` pipeline (a second gate call
  on the result of `evaluate_all`);
* `ecommerce_detection/layers/domain_infra.py` — the typosquatting
  detector (`_detect_typosquatting`) with a faithful model of
  `difflib.SequenceMatcher.ratio`, and the verified-platform bypass of
  `analyze`;
* `ecommerce_detection/layers/merchant_verification.py` — the
  trust-to-risk conversion and the verified-platform bypass;
* `app/services/layers/threat_intel.py` / `user_feedback.py` — the fixed
  results of the no-configuration and no-feedback branches;
* `app/config.py` — the weight table and the verified platform list.

Python strings are modelled as `String` with substring containment
(`in`) as `containsSub` over the character list; Python floats are
modelled as `ℚ` (every comparison and every constant that the claims
exercise is far from any binary rounding boundary, so the rational and
the floating computation decide all relevant branches identically).
-/

set_option maxRecDepth 8000

/-! ## Basic string model (Python `str` operations) -/

/-- Model of Python's builtin `max` on two floats (executable form of
`max` on `ℚ`). -/
def qmax (a b : ℚ) : ℚ := if a ≤ b then b else a

/-- Model of Python's builtin `min` on two floats (executable form of
`min` on `ℚ`). -/
def qmin (a b : ℚ) : ℚ := if a ≤ b then a else b

/-- Model of Python `str.lower` on one character (ASCII case folding). -/
def lowerChar (c : Char) : Char := c.toLower

/-- Model of Python `str.lower` on a character list. -/
def lowerData (l : List Char) : List Char := l.map lowerChar

/-- Model of Python `str.lower`. -/
def lowerStr (s : String) : String := ⟨lowerData s.data⟩

/-- Boolean prefix test on character lists. -/
def prefixOf : List Char → List Char → Bool
  | [], _ => true
  | _ :: _, [] => false
  | a :: as, b :: bs => a == b && prefixOf as bs

/-- Boolean substring containment on character lists: model of Python
`needle in hay` for strings. -/
def containsSub (hay needle : List Char) : Bool :=
  (List.range (hay.length + 1)).any (fun i => prefixOf needle (hay.drop i))

/-- Model of Python `needle in hay` on `String`. -/
def strContains (hay needle : String) : Bool :=
  containsSub hay.data needle.data

/-- Split a character list on a separator character, keeping empty
pieces: model of Python `str.split(sep)`. -/
def splitOnChar (sep : Char) : List Char → List (List Char)
  | [] => [[]]
  | c :: cs =>
    match splitOnChar sep cs with
    | [] => [[c]]
    | h :: t => if c == sep then [] :: h :: t else (c :: h) :: t

/-- Model of Python `" ".join(pieces)`. -/
def joinSpaceData : List (List Char) → List Char
  | [] => []
  | [m] => m
  | m :: ms => m ++ ' ' :: joinSpaceData ms

/-! ## Data model -/

/-- `LayerResult` dataclass: a layer's risk score (0..100, higher =
riskier) and its human-readable message. -/
structure LayerResult where
  score : ℚ
  message : String
deriving DecidableEq

/-- `Reason` dataclass of `scoring.py` (also the reason dict handed to
`apply_safety_gates`): a `LayerResult` annotated with its layer name and
aggregation weight. -/
structure ReasonD where
  layer : String
  message : String
  weight : ℚ
  score : ℚ
deriving DecidableEq

/-! ## Configuration (`app/config.py`) -/

/-- `settings.verified_major_platforms` from `app/config.py`. -/
def verifiedMajorPlatformsConfig : List String :=
  ["amazon.com", "amazon.in", "amazon.co.uk", "amazon.ca", "amazon.de", "amazon.fr",
   "flipkart.com", "myntra.com", "shopsy.com", "walmart.com", "target.com", "bestbuy.com",
   "google.com", "apple.com", "microsoft.com", "paypal.com", "stripe.com"]

/-- `DEFAULT_WEIGHTS` from `app/config.py` (used by `settings.weights`
when no `RISK_WEIGHTS_JSON` override is supplied). -/
def defaultWeights : List (String × ℚ) :=
  [("domain_infra", 0.25), ("content_ux", 0.10), ("business_verification", 0.15),
   ("technical_verification", 0.08), ("merchant_verification", 0.30),
   ("visual_brand", 0.05), ("threat_intel", 0.12), ("user_feedback", 0.05)]

/-- `w.get(key, default)` on the default weight table. -/
def wget (k : String) (dflt : ℚ) : ℚ :=
  match defaultWeights.lookup k with
  | some v => v
  | none => dflt

/-! ## Safety gate (`app/services/risk_rules.py`) -/

/-- `_is_verified_host`: the host (lowered) is in the verified platform
list, or is its `www.`-prefixed form. -/
def isVerifiedHost (host : String) : Bool :=
  let h := lowerStr host
  verifiedMajorPlatformsConfig.contains h ||
    (prefixOf ("www.".data) h.data && verifiedMajorPlatformsConfig.contains ⟨h.data.drop 4⟩)

/-- `PHISHING_TOKENS` from `risk_rules.py` (a Python set, modelled as a
list; only membership is ever used). -/
def phishingTokens : List String :=
  ["refund", "order", "support", "help", "verify", "verification",
   "payment", "pay", "secure", "security", "account", "update", "login",
   "billing", "wallet", "upi", "reset", "unlock"]

/-- `BADGE_ORDER` from `risk_rules.py`. -/
def badgeOrder : List String :=
  ["Verified Safe", "Low Risk", "Caution", "High Risk", "Critical"]

/-- `BADGE_ORDER.index(b)`: position of a badge in the fixed severity
order (total model: a string outside the order maps to 5). -/
def badgeIndex (b : String) : Nat := badgeOrder.indexOf b

/-- `_host_tokens`: split the host on `.`, drop the TLD when there are
at least two labels, split each remaining label on hyphens, and collect
the lowered non-empty tokens (a Python set, modelled as a list; only
membership is ever used). -/
def hostTokens (host : String) : List String :=
  let parts := splitOnChar '.' host.data
  let parts := if 2 ≤ parts.length then parts.dropLast else parts
  ((parts.map (fun p =>
      (splitOnChar ' ' (p.map (fun c => if c == '-' then ' ' else c))).filter (· ≠ []))).flatten).map
    (fun t => (⟨lowerData t⟩ : String))

/-- The failure-marker vocabulary of `apply_safety_gates`
(`failure_markers`, `risk_rules.py` lines 51-53). -/
def failureMarkers : List String :=
  ["timed out", "could not fetch", "failed", "not html", "no ssl",
   "certificate verification failed"]

/-- The failure count of `apply_safety_gates` (lines 54-61): reasons
whose lowered message contains a failure marker, skipping
merchant-verification reasons when the host is allow-listed. -/
def countFailures (host : String) (reasons : List ReasonD) : Nat :=
  (reasons.filter (fun r =>
    !(isVerifiedHost host && r.layer == "merchant_verification") &&
      failureMarkers.any (fun m => strContains (lowerStr r.message) m))).length

/-- The badge floor set by the failure count (lines 63-68): one benign
failure is allowed on a verified host, otherwise any failure forces at
least `Caution`. -/
def failuresFloor (verified : Bool) (failures : Nat) : String :=
  if 1 ≤ failures then
    (if verified && failures == 1 then "Verified Safe" else "Caution")
  else "Verified Safe"

/-- The score adjustment of the `failures >= 3` branch (lines 69-70). -/
def scoreAfterFailures (raw : ℚ) (failures : Nat) : ℚ :=
  if 3 ≤ failures then raw + 20 else raw

/-- The lowered concatenation `" ".join(messages).lower()` that the
typosquatting wording check inspects (line 49). -/
def gateText (reasons : List ReasonD) : List Char :=
  lowerData (joinSpaceData (reasons.map (fun r => r.message.data)))

/-- The critical-wording condition of line 79: the joined lowered
message text contains "typosquatting", "critical threat" or
"homograph". -/
def typoCond (reasons : List ReasonD) : Bool :=
  containsSub (gateText reasons) ("typosquatting".data) ||
    containsSub (gateText reasons) ("critical threat".data) ||
    containsSub (gateText reasons) ("homograph".data)

/-- The phishing-token condition of lines 73-75: some host token is in
the phishing vocabulary and the host is not allow-listed. -/
def phishCond (host : String) : Bool :=
  (hostTokens host).any (fun t => phishingTokens.contains t) && !(isVerifiedHost host)

/-- The score bucketing of lines 88-95. -/
def bucketBadge (score : ℚ) : String :=
  if score < 25 then "Low Risk"
  else if score < 45 then "Caution"
  else if score < 70 then "High Risk"
  else "Critical"

/-- The final badge selection of lines 85-101: `Verified Safe` only with
no failures and a score below 18, otherwise the bucket raised to the
minimum badge. -/
def finalBadge (failures : Nat) (score : ℚ) (minBadge : String) : String :=
  if failures = 0 ∧ score < 18 then "Verified Safe"
  else if badgeIndex (bucketBadge score) < badgeIndex minBadge then minBadge
  else bucketBadge score

/-- Model of `urllib.parse.urlparse(url).hostname or ""` (external
stdlib, modelled for URLs of the form `scheme://[user@]host[:port][/...]`;
a URL without `://` has no netloc and yields `""`). -/
def hostnameOf (url : String) : String :=
  match (List.range (url.data.length + 1)).find?
      (fun i => prefixOf ("://".data) (url.data.drop i)) with
  | none => ""
  | some i =>
    let netloc := (url.data.drop (i + 3)).takeWhile
      (fun c => !(c == '/') && !(c == '?') && !(c == '#'))
    let hostinfo := (splitOnChar '@' netloc).getLastD []
    ⟨lowerData (hostinfo.takeWhile (fun c => !(c == ':')))⟩

/-- `apply_safety_gates(url, reasons, raw_score)` from
`risk_rules.py`: post-process the raw score with the conservative gates
and return the adjusted score and the final badge. -/
def applySafetyGates (url : String) (reasons : List ReasonD) (rawScore : ℚ) : ℚ × String :=
  let host := lowerStr (hostnameOf url)
  let failures := countFailures host reasons
  let minBadge1 := failuresFloor (isVerifiedHost host) failures
  let score1 := scoreAfterFailures rawScore failures
  let minBadge2 := if 3 ≤ failures then "Caution" else minBadge1
  let score2 := if phishCond host then score1 + 25 else score1
  let minBadge3 := if phishCond host then "Caution" else minBadge2
  let score3 := if typoCond reasons then qmax score2 70 else score2
  let minBadge4 := if typoCond reasons then "High Risk" else minBadge3
  let score4 := qmax 0 (qmin 100 score3)
  (score4, finalBadge failures score4 minBadge4)

/-! ## Aggregator and pipeline (`app/services/scoring.py`, `app/routers/site.py`) -/

/-- The keyword list of the cross-layer correlation rule
(`scoring.py` line 128). -/
def corrKeywords : List String := ["failed", "could not", "timed out", "not found"]

/-- `analysis_failures` (`scoring.py` lines 126-128): how many of the
content, business, technical and merchant layers scored at least 25 with
a failure-keyword message. -/
def corrFailures (c b tech merchant : LayerResult) : Nat :=
  ([(c.score, c.message), (b.score, b.message), (tech.score, tech.message),
    (merchant.score, merchant.message)].filter (fun p =>
      decide (25 ≤ p.1) && corrKeywords.any (fun k => strContains (lowerStr p.2) k))).length

/-- The cross-layer correlation rule (`scoring.py` lines 130-134): with
3 or more analysis failures the domain layer's score is boosted by 35
(clamped at 100) and its message annotated; otherwise the domain layer
is untouched. -/
def correlationAdjust (d c b tech merchant : LayerResult) : LayerResult :=
  let n := corrFailures c b tech merchant
  if 3 ≤ n then
    ⟨qmin 100 (d.score + 35),
     d.message ++ "; SUSPICIOUS: " ++ toString n ++ " verification systems failed to analyze domain"⟩
  else d

/-- The `parts` list of `evaluate_all` (`scoring.py` lines 136-145),
built after the correlation rule has adjusted the domain layer, as the
`Reason` records handed to the safety gate. -/
def partsOf (d c v t b tech merchant fb : LayerResult) : List ReasonD :=
  let d2 := correlationAdjust d c b tech merchant
  [⟨"domain_infra", d2.message, wget ("domain_infra") 0.25, d2.score⟩,
   ⟨"content_ux", c.message, wget ("content_ux") 0.10, c.score⟩,
   ⟨"business_verification", b.message, wget ("business_verification") 0.15, b.score⟩,
   ⟨"technical_verification", tech.message, wget ("technical_verification") 0.08, tech.score⟩,
   ⟨"merchant_verification", merchant.message, wget ("merchant_verification") 0.30, merchant.score⟩,
   ⟨"visual_brand", v.message, wget ("visual_brand") 0.05, v.score⟩,
   ⟨"threat_intel", t.message, wget ("threat_intel") 0.12, t.score⟩,
   ⟨"user_feedback", fb.message, wget ("user_feedback") 0.05, fb.score⟩]

/-- The clamped weighted raw score of `evaluate_all`
(`scoring.py` lines 147-153). -/
def rawTotal (d c v t b tech merchant fb : LayerResult) : ℚ :=
  qmax 0 (qmin 100 (((partsOf d c v t b tech merchant fb).map (fun r => r.score * r.weight)).sum))

/-- `evaluate_all` after the layer analyses have produced their results
(`scoring.py` lines 118-160): aggregate, apply the safety gate once, and
return the gated score together with the reasons (the gate's badge is
discarded here). -/
def evaluateAllCore (url : String) (d c v t b tech merchant fb : LayerResult) :
    ℚ × List ReasonD :=
  let reasons := partsOf d c v t b tech merchant fb
  ((applySafetyGates url reasons (rawTotal d c v t b tech merchant fb)).1, reasons)

/-- The `check_site` pipeline (`site.py` lines 16-23): call
`evaluate_all`, then apply the safety gate to the score it returned, and
answer with that adjusted score and gated badge. -/
def checkSiteOutcome (url : String) (d c v t b tech merchant fb : LayerResult) : ℚ × String :=
  let r := evaluateAllCore url d c v t b tech merchant fb
  applySafetyGates url r.2 r.1

/-! ## Orchestrator timeout wrapper (`scoring.py` lines 84-90, 109-114) -/

/-- The outcome of awaiting one layer's analysis coroutine: it produced
a result, it exceeded its configured timeout, or it raised some other
exception. Real time and the event loop are abstracted into this
three-way outcome; `_with_timeout` is a pure function of it. -/
inductive LayerOutcome where
  | ok (r : LayerResult)
  | timeout
  | failure
deriving DecidableEq

/-- `_with_timeout(coro, layer_name, timeout_sec, fallback_score,
fallback_message)`: pass a completed result through, substitute the
fallback score with the message `"<layer> timed out"` on timeout, and
the fallback score with the fallback message on any other exception.
Totality of this function is the no-exception-propagates guarantee. -/
def withTimeout (o : LayerOutcome) (layerName : String) (timeoutSec : ℚ)
    (fallbackScore : ℚ) (fallbackMessage : String) : LayerResult :=
  match o with
  | .ok r => r
  | .timeout => ⟨fallbackScore, layerName ++ " timed out"⟩
  | .failure => ⟨fallbackScore, fallbackMessage⟩

/-- The six concurrently run layers with their configured timeout,
fallback score and fallback message (`scoring.py` lines 109-114):
`(name, timeout_sec, fallback_score, fallback_message)`. -/
def layerConfigs : List (String × ℚ × ℚ × String) :=
  [("content_ux", 8, 15, "Content/UX analysis failed"),
   ("visual_brand", 5, 5, "Visual/brand analysis failed"),
   ("threat_intel", 8, 0, "Threat intel check failed"),
   ("business_verification", 10, 25, "Business verification failed"),
   ("technical_verification", 8, 15, "Technical verification failed"),
   ("merchant_verification", 10, 30, "Merchant verification failed")]

/-! ## Fixed layer results used by the end-to-end scenario -/

/-- The verified-platform bypass of the domain layer
(`ecommerce_detection/layers/domain_infra.py` lines 143-147). -/
def domainVerifiedResult (host : String) : LayerResult :=
  ⟨0, "VERIFIED MAJOR PLATFORM: " ++ host ++ " is a trusted global platform"⟩

/-- The verified-platform bypass of the merchant layer
(`ecommerce_detection/layers/merchant_verification.py` lines 281-287). -/
def merchantVerifiedResult (host : String) : LayerResult :=
  ⟨0, "VERIFIED PLATFORM: " ++ host ++ " merchant verification bypassed"⟩

/-- The threat-intel layer result when no external API is configured
(`app/services/layers/threat_intel.py` lines 52-54). -/
def threatNoConfigResult : LayerResult :=
  ⟨10, "No external threat intel configured"⟩

/-- The feedback layer result for a URL with zero prior feedback records
(`app/services/layers/user_feedback.py` lines 16-17). -/
def feedbackNoRecordsResult : LayerResult :=
  ⟨5, "No user feedback yet"⟩

/-! ## Domain layer platform set (`ecommerce_detection/layers/domain_infra.py`) -/

/-- `VERIFIED_MAJOR_PLATFORMS` of `domain_infra.py` (a Python set,
modelled as a list; only membership is ever used). -/
def domainInfraVerifiedPlatforms : List String :=
  ["amazon.com", "flipkart.com", "myntra.com", "ajio.com", "nykaa.com",
   "meesho.com", "snapdeal.com", "shopclues.com", "paytmmall.com",
   "ebay.com", "alibaba.com", "walmart.com", "target.com", "bestbuy.com"]

/-- The condition under which the domain layer's `analyze` takes the
verified-platform score-0 shortcut (`domain_infra.py` line 144): the
exact lowered hostname is a member of the platform set. -/
def domainBypassTaken (host : String) : Bool :=
  domainInfraVerifiedPlatforms.contains (lowerStr host)

/-! ## Typosquatting detector (`domain_infra.py` lines 81-129) -/

/-- Length of the common prefix of two character lists. -/
def commonPrefixLen : List Char → List Char → Nat
  | a :: as, b :: bs => if a == b then commonPrefixLen as bs + 1 else 0
  | _, _ => 0

/-- The length of the matching run of `a[i:ahi]` against `b[j:bhi]`
starting at positions `i` and `j`. -/
def matchLen (a b : List Char) (ahi bhi i j : Nat) : Nat :=
  commonPrefixLen ((a.take ahi).drop i) ((b.take bhi).drop j)

/-- `difflib.SequenceMatcher.find_longest_match` on the window
`a[alo:ahi]`, `b[blo:bhi]` (no junk, no autojunk for these short
strings): the longest matching run, ties broken by the earliest start in
`a` and then the earliest start in `b`; returns `(i, j, size)`. -/
def findLongestRun (a b : List Char) (alo ahi blo bhi : Nat) : Nat × Nat × Nat :=
  (((List.range' alo (ahi - alo)).map
      (fun i => (List.range' blo (bhi - blo)).map (fun j => (i, j)))).flatten).foldl
    (fun best ij =>
      let k := matchLen a b ahi bhi ij.1 ij.2
      if best.2.2 < k then (ij.1, ij.2, k) else best)
    (alo, blo, 0)

/-- The total size of the matching blocks of
`difflib.SequenceMatcher.get_matching_blocks` on a window: recursively
split around the longest match. The fuel argument bounds the recursion
depth; every call site supplies at least the window size plus one, which
the strictly shrinking windows never exhaust. -/
def matchTotal (a b : List Char) : Nat → Nat → Nat → Nat → Nat → Nat
  | 0, _, _, _, _ => 0
  | fuel + 1, alo, ahi, blo, bhi =>
    let r := findLongestRun a b alo ahi blo bhi
    if r.2.2 = 0 then 0
    else r.2.2 + matchTotal a b fuel alo r.1 blo r.2.1 +
      matchTotal a b fuel (r.1 + r.2.2) ahi (r.2.1 + r.2.2) bhi

/-- `difflib.SequenceMatcher(None, a, b).ratio()`:
`2 * (total matched) / (len(a) + len(b))`, and 1 for two empty
sequences. -/
def smRatioVal (a b : List Char) : ℚ :=
  if a.length + b.length = 0 then 1
  else 2 * (matchTotal a b (a.length + b.length + 1) 0 a.length 0 b.length : ℚ) /
    (a.length + b.length)

/-- `typosquat_patterns` from `_detect_typosquatting`. -/
def typosquatPatterns : List (String × List String) :=
  [("amazon", ["amzon", "amazom", "amazone", "amazn", "amaozn", "amaxon", "amzaon"]),
   ("flipkart", ["flipkrt", "flipkat", "flikart", "flpkart", "flipcart"]),
   ("google", ["googel", "gogle", "googl", "goolge", "gooogle"]),
   ("facebook", ["facbook", "facebuk", "facboook", "facebok"]),
   ("paypal", ["payp4l", "payapl", "paipal", "paypal1"]),
   ("apple", ["aple", "appel", "aplle", "applle"]),
   ("microsoft", ["mircosoft", "microsooft", "micorsoft"])]

/-- `CANONICAL_BRANDS` from `domain_infra.py`, in insertion order. -/
def canonicalBrandsDomainInfra : List (String × List String) :=
  [("amazon", ["amazon.com", "amazon.in", "amazon.co.uk"]),
   ("flipkart", ["flipkart.com"]),
   ("google", ["google.com", "google.co.in"]),
   ("facebook", ["facebook.com", "meta.com"]),
   ("paypal", ["paypal.com"]),
   ("apple", ["apple.com"]),
   ("microsoft", ["microsoft.com"]),
   ("myntra", ["myntra.com"]),
   ("nykaa", ["nykaa.com"])]

/-- Positional substitution count:
`sum(1 for a, b in zip(xs, ys) if a != b)`. -/
def countDiff : List Char → List Char → Nat
  | a :: as, b :: bs => (if a == b then 0 else 1) + countDiff as bs
  | _, _ => 0

/-- The second-level label of a dotted domain
(`_detect_typosquatting` lines 87-88): `parts[-2]` when there are at
least two labels, else `parts[0]`. -/
def sldOf (domain : String) : String :=
  let parts := splitOnChar '.' domain.data
  ⟨if 2 ≤ parts.length then parts.getD (parts.length - 2) [] else parts.getD 0 []⟩

/-- Absolute difference of two lengths, `abs(la - lb)`. -/
def natAbsDiff (a b : Nat) : Nat := max a b - min a b

/-- One iteration of the brand loop of `_detect_typosquatting`
(lines 107-127): skip a brand whose canonical domain occurs in the
domain; for equal-length labels use the positional substitution count
(1 differing position scores 80, 2 score 70); otherwise, when the
lengths differ by at most 2, a similarity ratio of at least 0.85 scores
75. -/
def brandCheck (domain sld : String) (brand : String) (canon : List String) : Option ℚ :=
  if canon.any (fun c => strContains domain c) then none
  else
    let bl := (lowerStr brand).data
    let sl := (lowerStr sld).data
    if sl.length = bl.length then
      if countDiff sl bl = 1 then some 80
      else if countDiff sl bl = 2 then some 70
      else none
    else if natAbsDiff sl.length bl.length ≤ 2 then
      (if 85 / 100 ≤ smRatioVal sl bl then some 75 else none)
    else none

/-- `_detect_typosquatting(domain)` from `domain_infra.py`: 0 for an
empty domain, 85 on an exact known-typosquat match of the second-level
label, else the first firing brand rule, else 0. -/
def detectTyposquatting (domain : String) : ℚ :=
  if domain = "" then 0
  else
    let sld := sldOf domain
    if typosquatPatterns.any (fun bp => bp.2.contains (lowerStr sld)) then 85
    else
      match canonicalBrandsDomainInfra.findSome? (fun bp => brandCheck domain sld bp.1 bp.2) with
      | some v => v
      | none => 0

/-! ## Merchant trust-to-risk conversion
(`ecommerce_detection/layers/merchant_verification.py` lines 315-327) -/

/-- The aggressive trust-to-risk mapping of the merchant layer. -/
def trustToRisk (trust : ℚ) : ℚ :=
  if trust ≤ 10 then 95
  else if trust ≤ 20 then 85
  else if trust ≤ 30 then 70
  else if trust ≤ 50 then 50
  else if trust ≤ 70 then 30
  else qmax 0 (100 - trust)

/-! ## Spec-side definitions (the claims' own wording, for comparison
with the code-side definitions above) -/

/-- One brand rule as the specification words it: 80 when the label has
the same length as the brand name and differs in exactly 1 character
position, 70 when it differs in exactly 2 positions, and 75 when the
lengths differ (by at most 2, per the spec's dichotomy between the
equal-length substitution count and the unequal-length ratio) and the
normalized similarity ratio is at least 0.85; considered only for a
brand whose canonical domains do not occur in the domain. -/
def brandCheckSpec (domain sld : String) (brand : String) (canon : List String) : Option ℚ :=
  if canon.any (fun c => strContains domain c) then none
  else
    let bl := (lowerStr brand).data
    let sl := (lowerStr sld).data
    if sl.length = bl.length ∧ countDiff sl bl = 1 then some 80
    else if sl.length = bl.length ∧ countDiff sl bl = 2 then some 70
    else if sl.length ≠ bl.length ∧ natAbsDiff sl.length bl.length ≤ 2 ∧
        85 / 100 ≤ smRatioVal sl bl then some 75
    else none

/-- The typosquatting detector as the claim words it: 85 when the
second-level label exactly matches a curated known-typosquat string for
some brand; otherwise the first firing brand rule; 0 when no rule
fires. -/
def detectTyposquattingSpec (domain : String) : ℚ :=
  let sld := sldOf domain
  if typosquatPatterns.any (fun bp => bp.2.contains (lowerStr sld)) then 85
  else
    match canonicalBrandsDomainInfra.findSome? (fun bp => brandCheckSpec domain sld bp.1 bp.2) with
    | some v => v
    | none => 0

/-- The failure-marker vocabulary that claim C3 asserts
(it differs from the code's `failure_markers`). -/
def claimFailureMarkersC3 : List String :=
  ["timed out", "could not fetch", "failed", "not found"]

/-- The failure count as claim C3 words it, with the claim's marker
vocabulary: the number of reasons (excluding merchant-verification
reasons when the host is allow-listed) whose message contains one of
the claimed markers. -/
def claimFailCountC3 (host : String) (reasons : List ReasonD) : Nat :=
  reasons.countP (fun r =>
    if isVerifiedHost host && r.layer == "merchant_verification" then false
    else claimFailureMarkersC3.any (fun m => strContains (lowerStr r.message) m))

/-- The failure count as the amended claim words it, with the code's
marker vocabulary. -/
def specFailCount (host : String) (reasons : List ReasonD) : Nat :=
  reasons.countP (fun r =>
    if isVerifiedHost host && r.layer == "merchant_verification" then false
    else failureMarkers.any (fun m => strContains (lowerStr r.message) m))

/-- The cross-layer failure count as claim C4 words it: how many of the
four layers have score at least 25 and a message containing a
failure-marker keyword. -/
def specCorrFailures (c b tech merchant : LayerResult) : Nat :=
  [(c.score, c.message), (b.score, b.message), (tech.score, tech.message),
   (merchant.score, merchant.message)].countP (fun p =>
    decide (25 ≤ p.1) && corrKeywords.any (fun k => strContains (lowerStr p.2) k))

/-! ## Helper lemmas -/

theorem qmax_eq_max (a b : ℚ) : qmax a b = max a b := by
  unfold qmax
  split_ifs with h
  · exact (max_eq_right h).symm
  · exact (max_eq_left (le_of_not_le h)).symm

theorem qmin_eq_min (a b : ℚ) : qmin a b = min a b := by
  unfold qmin
  split_ifs with h
  · exact (min_eq_left h).symm
  · exact (min_eq_right (le_of_not_le h)).symm

theorem prefixOf_append {n x : List Char} (t : List Char) (h : prefixOf n x = true) :
    prefixOf n (x ++ t) = true := by
  induction n generalizing x with
  | nil => rfl
  | cons a as ih =>
    cases x with
    | nil => simp [prefixOf] at h
    | cons b bs =>
      simp only [List.cons_append, prefixOf, Bool.and_eq_true] at h ⊢
      exact ⟨h.1, ih h.2⟩

theorem containsSub_exists {h n : List Char} :
    containsSub h n = true ↔ ∃ i, i ≤ h.length ∧ prefixOf n (h.drop i) = true := by
  unfold containsSub
  rw [List.any_eq_true]
  constructor
  · rintro ⟨i, hi, hp⟩
    exact ⟨i, Nat.lt_succ_iff.mp (List.mem_range.mp hi), hp⟩
  · rintro ⟨i, hi, hp⟩
    exact ⟨i, List.mem_range.mpr (Nat.lt_succ_iff.mpr hi), hp⟩

theorem containsSub_append_right {h n : List Char} (t : List Char)
    (hc : containsSub h n = true) : containsSub (h ++ t) n = true := by
  rcases containsSub_exists.mp hc with ⟨i, hi, hp⟩
  refine containsSub_exists.mpr ⟨i, ?_, ?_⟩
  · rw [List.length_append]; omega
  · rw [List.drop_append_of_le_length hi]
    exact prefixOf_append t hp

theorem containsSub_append_left {h n : List Char} (t : List Char)
    (hc : containsSub h n = true) : containsSub (t ++ h) n = true := by
  rcases containsSub_exists.mp hc with ⟨i, hi, hp⟩
  refine containsSub_exists.mpr ⟨t.length + i, ?_, ?_⟩
  · rw [List.length_append]; omega
  · rw [List.drop_append]
    exact hp

theorem prefixOf_map (f : Char → Char) {n x : List Char} (h : prefixOf n x = true) :
    prefixOf (n.map f) (x.map f) = true := by
  induction n generalizing x with
  | nil => rfl
  | cons a as ih =>
    cases x with
    | nil => simp [prefixOf] at h
    | cons b bs =>
      simp only [List.map_cons, prefixOf, Bool.and_eq_true, beq_iff_eq] at h ⊢
      exact ⟨by rw [h.1], ih h.2⟩

theorem containsSub_map (f : Char → Char) {h n : List Char}
    (hc : containsSub h n = true) : containsSub (h.map f) (n.map f) = true := by
  rcases containsSub_exists.mp hc with ⟨i, hi, hp⟩
  refine containsSub_exists.mpr ⟨i, ?_, ?_⟩
  · rw [List.length_map]; exact hi
  · rw [← List.map_drop]
    exact prefixOf_map f hp

theorem containsSub_joinSpace {msgs : List (List Char)} {m n : List Char}
    (hm : m ∈ msgs) (hc : containsSub (lowerData m) n = true) :
    containsSub (lowerData (joinSpaceData msgs)) n = true := by
  induction msgs with
  | nil => cases hm
  | cons m0 ms ih =>
    cases ms with
    | nil =>
      rw [List.mem_singleton] at hm
      subst hm
      exact hc
    | cons m1 ms1 =>
      rcases List.mem_cons.mp hm with h0 | h1
      · subst h0
        show containsSub (lowerData (m ++ ' ' :: joinSpaceData (m1 :: ms1))) n = true
        unfold lowerData
        rw [List.map_append]
        exact containsSub_append_right _ hc
      · have hrec := ih h1
        show containsSub (lowerData (m0 ++ ' ' :: joinSpaceData (m1 :: ms1))) n = true
        unfold lowerData at hrec ⊢
        rw [List.map_append, List.map_cons]
        have h2 : containsSub (lowerChar ' ' ::
            List.map lowerChar (joinSpaceData (m1 :: ms1))) n = true :=
          containsSub_append_left [lowerChar ' '] hrec
        exact containsSub_append_left _ h2

theorem gateText_contains {reasons : List ReasonD} {r : ReasonD} (hr : r ∈ reasons)
    {needle : String} (hlow : (needle.data).map lowerChar = needle.data)
    (hc : strContains r.message needle = true) :
    containsSub (gateText reasons) needle.data = true := by
  have h2 := containsSub_map lowerChar (hc : containsSub r.message.data needle.data = true)
  rw [hlow] at h2
  exact containsSub_joinSpace (List.mem_map_of_mem (fun x => x.message.data) hr) h2

theorem badgeIdx_ite_max (mB : String) (s : ℚ) :
    badgeIndex (if badgeIndex (bucketBadge s) < badgeIndex mB then mB else bucketBadge s) =
      max (badgeIndex (bucketBadge s)) (badgeIndex mB) := by
  split_ifs with h
  · exact (max_eq_right (Nat.le_of_lt h)).symm
  · exact (max_eq_left (Nat.le_of_not_lt h)).symm

theorem finalBadge_pos_idx (f : Nat) (s : ℚ) (mB : String) (hf : ¬(f = 0 ∧ s < 18)) :
    badgeIndex (finalBadge f s mB) = max (badgeIndex (bucketBadge s)) (badgeIndex mB) := by
  unfold finalBadge
  rw [if_neg hf]
  exact badgeIdx_ite_max mB s

theorem bucketBadge_idx_eq (s : ℚ) :
    badgeIndex (bucketBadge s) =
      if s < 25 then 1 else if s < 45 then 2 else if s < 70 then 3 else 4 := by
  unfold bucketBadge
  split_ifs <;> decide

theorem bucketBadge_idx_mono {x y : ℚ} (h : x ≤ y) :
    badgeIndex (bucketBadge x) ≤ badgeIndex (bucketBadge y) := by
  rw [bucketBadge_idx_eq, bucketBadge_idx_eq]
  split_ifs <;> first | omega | (exfalso; linarith)

theorem clamp_mono {x y : ℚ} (h : x ≤ y) : qmax 0 (qmin 100 x) ≤ qmax 0 (qmin 100 y) := by
  rw [qmax_eq_max, qmax_eq_max, qmin_eq_min, qmin_eq_min]
  exact max_le_max le_rfl (min_le_min le_rfl h)

theorem clamp_ge_70 (x : ℚ) : 70 ≤ qmax 0 (qmin 100 (qmax x 70)) := by
  rw [qmax_eq_max, qmin_eq_min, qmax_eq_max]
  exact le_trans (le_min (by norm_num) (le_max_right x 70)) (le_max_right 0 _)

theorem finalBadge_zero_idx_mono (mB : String) {x y : ℚ} (h : x ≤ y) :
    badgeIndex (finalBadge 0 x mB) ≤ badgeIndex (finalBadge 0 y mB) := by
  unfold finalBadge
  by_cases hx : x < 18
  · rw [if_pos ⟨rfl, hx⟩]
    have hvs : badgeIndex ("Verified Safe") = 0 := by decide
    rw [hvs]
    exact Nat.zero_le _
  · have hy : ¬ y < 18 := fun hy => hx (lt_of_le_of_lt h hy)
    rw [if_neg (show ¬(0 = 0 ∧ x < 18) from fun hh => hx hh.2),
      if_neg (show ¬(0 = 0 ∧ y < 18) from fun hh => hy hh.2)]
    rw [badgeIdx_ite_max, badgeIdx_ite_max]
    exact max_le_max (bucketBadge_idx_mono h) le_rfl

theorem and_beq_one_false {v : Bool} {f : Nat} (h : ¬(v = true ∧ f = 1)) :
    (v && f == 1) = false := by
  cases v with
  | false => rfl
  | true =>
    simp only [Bool.true_and]
    exact beq_eq_false_iff_ne.mpr (fun hf => h ⟨rfl, hf⟩)

/-! ## Claim theorems -/

/-- C6: the merchant layer's trust-to-risk conversion maps a trust value
t in [0,100] by exactly the piecewise table (t ≤ 10 → 95; ≤20 → 85;
≤30 → 70; ≤50 → 50; ≤70 → 30; otherwise 100 − t, never negative), and
lower trust always maps to higher (never lower) risk. -/
theorem c6_trust_to_risk_mapping :
    (∀ t : ℚ, 0 ≤ t → t ≤ 100 →
      ((t ≤ 10 → trustToRisk t = 95) ∧
       (10 < t → t ≤ 20 → trustToRisk t = 85) ∧
       (20 < t → t ≤ 30 → trustToRisk t = 70) ∧
       (30 < t → t ≤ 50 → trustToRisk t = 50) ∧
       (50 < t → t ≤ 70 → trustToRisk t = 30) ∧
       (70 < t → trustToRisk t = 100 - t ∧ 0 ≤ trustToRisk t))) ∧
    (∀ t1 t2 : ℚ, 0 ≤ t1 → t1 ≤ t2 → t2 ≤ 100 → trustToRisk t2 ≤ trustToRisk t1) := by
  constructor
  · intro t h0 h100
    refine ⟨fun h => ?_, fun h h2 => ?_, fun h h2 => ?_, fun h h2 => ?_, fun h h2 => ?_,
      fun h => ?_⟩ <;> unfold trustToRisk qmax <;> split_ifs <;>
      first | rfl | linarith | (constructor <;> first | rfl | linarith)
  · intro t1 t2 h0 h12 h100
    unfold trustToRisk qmax
    split_ifs <;> linarith

/-- C6 witness: the mapping and the antitonicity at concrete trust
values. -/
theorem c6_trust_to_risk_mapping_witness :
    trustToRisk 15 = 85 ∧ trustToRisk 60 ≤ trustToRisk 20 :=
  ⟨(c6_trust_to_risk_mapping.1 15 (by norm_num) (by norm_num)).2.1 (by norm_num) (by norm_num),
   c6_trust_to_risk_mapping.2 20 60 (by norm_num) (by norm_num) (by norm_num)⟩

/-- C7: for each of the six concurrently run layers, the timeout wrapper
substitutes the layer's configured fallback score with the message
"<layer> timed out" on timeout, substitutes the same fallback score with
a different fixed fallback message on any other exception, passes a
completed result through unchanged, and (being a total function of the
outcome) never propagates an exception. -/
theorem c7_timeout_wrapper_fallbacks : ∀ cfg ∈ layerConfigs,
    withTimeout LayerOutcome.timeout cfg.1 cfg.2.1 cfg.2.2.1 cfg.2.2.2 =
      ⟨cfg.2.2.1, cfg.1 ++ " timed out"⟩ ∧
    withTimeout LayerOutcome.failure cfg.1 cfg.2.1 cfg.2.2.1 cfg.2.2.2 =
      ⟨cfg.2.2.1, cfg.2.2.2⟩ ∧
    cfg.1 ++ " timed out" ≠ cfg.2.2.2 ∧
    ∀ r, withTimeout (LayerOutcome.ok r) cfg.1 cfg.2.1 cfg.2.2.1 cfg.2.2.2 = r := by
  intro cfg hcfg
  refine ⟨rfl, rfl, ?_, fun r => rfl⟩
  fin_cases hcfg <;> decide

/-- C7 witness: the content layer's configured wrapper at both fallback
outcomes. -/
theorem c7_timeout_wrapper_fallbacks_witness :
    withTimeout LayerOutcome.timeout ("content_ux") 8 15 ("Content/UX analysis failed") =
      ⟨15, "content_ux" ++ " timed out"⟩ ∧
    withTimeout LayerOutcome.failure ("content_ux") 8 15 ("Content/UX analysis failed") =
      ⟨15, "Content/UX analysis failed"⟩ :=
  ⟨(c7_timeout_wrapper_fallbacks (("content_ux", 8, 15, "Content/UX analysis failed"))
      (by decide)).1,
   (c7_timeout_wrapper_fallbacks (("content_ux", 8, 15, "Content/UX analysis failed"))
      (by decide)).2.1⟩

/-- C10: the domain layer and the safety gate disagree on
www-prefixed hosts: for every verified platform p, the gate's allow-list
predicate accepts "www." ++ p, while the domain layer's verified-platform
bypass condition (exact membership of the lowered hostname in its
platform set) rejects it. -/
theorem c10_www_host_disagreement : ∀ p ∈ verifiedMajorPlatformsConfig,
    isVerifiedHost ("www." ++ p) = true ∧ domainBypassTaken ("www." ++ p) = false := by
  decide

/-- C10 witness: www.amazon.com is allow-listed for the gate but not
bypassed by the domain layer. -/
theorem c10_www_host_disagreement_witness :
    isVerifiedHost ("www." ++ "amazon.com") = true ∧
    domainBypassTaken ("www." ++ "amazon.com") = false :=
  c10_www_host_disagreement ("amazon.com") (by decide)

/-- C4: the cross-layer correlation rule counts exactly the layers among
content, business, technical and merchant with score at least 25 and a
failure-keyword message; with 3 or more such layers the domain layer's
score is increased by exactly 35 (clamped at 100) and its message
annotated, and otherwise the domain layer is left unchanged. -/
theorem c4_correlation_boost : ∀ d c b tech merchant : LayerResult,
    corrFailures c b tech merchant = specCorrFailures c b tech merchant ∧
    (3 ≤ corrFailures c b tech merchant →
      correlationAdjust d c b tech merchant =
        ⟨qmin 100 (d.score + 35),
         d.message ++ "; SUSPICIOUS: " ++ toString (corrFailures c b tech merchant) ++
           " verification systems failed to analyze domain"⟩) ∧
    (corrFailures c b tech merchant < 3 → correlationAdjust d c b tech merchant = d) := by
  intro d c b tech merchant
  refine ⟨?_, fun h3 => ?_, fun h3 => ?_⟩
  · unfold corrFailures specCorrFailures
    rw [List.countP_eq_length_filter]
  · unfold correlationAdjust
    rw [if_pos h3]
  · unfold correlationAdjust
    rw [if_neg (by omega : ¬ 3 ≤ corrFailures c b tech merchant)]

/-- C4 witness: three failing layers boost the domain layer by 35 with
an annotated message; two failing layers leave it unchanged. -/
theorem c4_correlation_boost_witness :
    correlationAdjust ⟨10, "m"⟩ ⟨30, "fetch failed"⟩ ⟨30, "could not verify"⟩
        ⟨25, "timed out"⟩ ⟨0, "ok"⟩ =
      ⟨qmin 100 ((10 : ℚ) + 35),
       "m" ++ "; SUSPICIOUS: " ++
         toString (corrFailures ⟨30, "fetch failed"⟩ ⟨30, "could not verify"⟩
           ⟨25, "timed out"⟩ ⟨0, "ok"⟩) ++
         " verification systems failed to analyze domain"⟩ ∧
    correlationAdjust ⟨10, "m"⟩ ⟨30, "fetch failed"⟩ ⟨30, "could not verify"⟩
        ⟨0, "ok"⟩ ⟨0, "ok"⟩ = ⟨10, "m"⟩ :=
  ⟨(c4_correlation_boost ⟨10, "m"⟩ ⟨30, "fetch failed"⟩ ⟨30, "could not verify"⟩
      ⟨25, "timed out"⟩ ⟨0, "ok"⟩).2.1 (by decide),
   (c4_correlation_boost ⟨10, "m"⟩ ⟨30, "fetch failed"⟩ ⟨30, "could not verify"⟩
      ⟨0, "ok"⟩ ⟨0, "ok"⟩).2.2 (by decide)⟩

theorem brandCheck_eq_spec (domain sld brand : String) (canon : List String) :
    brandCheck domain sld brand canon = brandCheckSpec domain sld brand canon := by
  unfold brandCheck brandCheckSpec
  by_cases h1 : canon.any (fun c => strContains domain c) = true
  · rw [if_pos h1, if_pos h1]
  · rw [if_neg h1, if_neg h1]
    dsimp only
    generalize (lowerStr brand).data = bl
    generalize (lowerStr sld).data = sl
    by_cases h2 : sl.length = bl.length
    · by_cases h3 : countDiff sl bl = 1
      · rw [if_pos h2, if_pos h3,
          if_pos (show sl.length = bl.length ∧ countDiff sl bl = 1 from ⟨h2, h3⟩)]
      · by_cases h4 : countDiff sl bl = 2
        · rw [if_pos h2, if_neg h3, if_pos h4,
            if_neg (show ¬(sl.length = bl.length ∧ countDiff sl bl = 1) from
              fun hh => h3 hh.2),
            if_pos (show sl.length = bl.length ∧ countDiff sl bl = 2 from ⟨h2, h4⟩)]
        · rw [if_pos h2, if_neg h3, if_neg h4,
            if_neg (show ¬(sl.length = bl.length ∧ countDiff sl bl = 1) from
              fun hh => h3 hh.2),
            if_neg (show ¬(sl.length = bl.length ∧ countDiff sl bl = 2) from
              fun hh => h4 hh.2),
            if_neg (show ¬(sl.length ≠ bl.length ∧ natAbsDiff sl.length bl.length ≤ 2 ∧
                85 / 100 ≤ smRatioVal sl bl) from fun hh => hh.1 h2)]
    · rw [if_neg h2,
        if_neg (show ¬(sl.length = bl.length ∧ countDiff sl bl = 1) from fun hh => h2 hh.1),
        if_neg (show ¬(sl.length = bl.length ∧ countDiff sl bl = 2) from fun hh => h2 hh.1)]
      by_cases h5 : natAbsDiff sl.length bl.length ≤ 2
      · by_cases h6 : 85 / 100 ≤ smRatioVal sl bl
        · rw [if_pos h5, if_pos h6,
            if_pos (show sl.length ≠ bl.length ∧ natAbsDiff sl.length bl.length ≤ 2 ∧
              85 / 100 ≤ smRatioVal sl bl from ⟨h2, h5, h6⟩)]
        · rw [if_pos h5, if_neg h6,
            if_neg (show ¬(sl.length ≠ bl.length ∧ natAbsDiff sl.length bl.length ≤ 2 ∧
              85 / 100 ≤ smRatioVal sl bl) from fun hh => h6 hh.2.2)]
      · rw [if_neg h5,
          if_neg (show ¬(sl.length ≠ bl.length ∧ natAbsDiff sl.length bl.length ≤ 2 ∧
            85 / 100 ≤ smRatioVal sl bl) from fun hh => h5 hh.2.1)]

/-- C5: the typosquatting detector computes exactly the claimed cascade:
85 on an exact match of the second-level label against a curated
known-typosquat string; otherwise, for the first brand whose canonical
domains do not occur in the domain, 80 for an equal-length label with
exactly 1 differing position, 70 for exactly 2, 75 when the lengths
differ by at most 2 and the similarity ratio is at least 0.85; 0 when no
rule fires. -/
theorem c5_detector_matches_spec :
    ∀ domain : String, detectTyposquatting domain = detectTyposquattingSpec domain := by
  intro domain
  by_cases h : domain = ""
  · subst h
    decide
  · unfold detectTyposquatting detectTyposquattingSpec
    rw [if_neg h]
    simp only [brandCheck_eq_spec]

/-- C1: any reason whose message contains "typosquatting",
"critical threat" or "homograph" forces the gate's adjusted score to at
least 70 and the final badge to severity at least "High Risk", whatever
the raw score. -/
theorem c1_critical_wording_floor : ∀ (url : String) (reasons : List ReasonD) (raw : ℚ),
    (∃ r ∈ reasons,
      strContains r.message ("typosquatting") = true ∨
      strContains r.message ("critical threat") = true ∨
      strContains r.message ("homograph") = true) →
    70 ≤ (applySafetyGates url reasons raw).1 ∧
    badgeIndex ("High Risk") ≤ badgeIndex ((applySafetyGates url reasons raw).2) := by
  intro url reasons raw h
  have htypo : typoCond reasons = true := by
    obtain ⟨r, hr, hcase⟩ := h
    unfold typoCond
    rcases hcase with hc | hc | hc
    · simp [gateText_contains hr (by decide) hc]
    · simp [gateText_contains hr (by decide) hc]
    · simp [gateText_contains hr (by decide) hc]
  unfold applySafetyGates
  simp only [htypo, if_true]
  constructor
  · exact clamp_ge_70 _
  · have hge := clamp_ge_70 (if phishCond (lowerStr (hostnameOf url)) then
      scoreAfterFailures raw (countFailures (lowerStr (hostnameOf url)) reasons) + 25
      else scoreAfterFailures raw (countFailures (lowerStr (hostnameOf url)) reasons))
    rw [finalBadge_pos_idx _ _ _ (fun hh => absurd hh.2 (not_lt.mpr (by linarith)))]
    exact le_max_right _ _

/-- C1 witness: a single typosquatting-worded reason at raw score 5. -/
theorem c1_critical_wording_floor_witness :
    70 ≤ (applySafetyGates ("https://example.com")
        [⟨"domain_infra", "typosquatting suspected", 0.25, 65⟩] 5).1 ∧
    badgeIndex ("High Risk") ≤ badgeIndex ((applySafetyGates ("https://example.com")
        [⟨"domain_infra", "typosquatting suspected", 0.25, 65⟩] 5).2) :=
  c1_critical_wording_floor ("https://example.com")
    [⟨"domain_infra", "typosquatting suspected", 0.25, 65⟩] 5 (by decide)

/-- C9: with an empty reasons list the gate's badge is monotonically
non-decreasing in the raw score over [0, 100], in the fixed badge
severity order. -/
theorem c9_badge_monotone_empty_reasons : ∀ (url : String) (s1 s2 : ℚ),
    0 ≤ s1 → s1 ≤ s2 → s2 ≤ 100 →
    badgeIndex ((applySafetyGates url [] s1).2) ≤
      badgeIndex ((applySafetyGates url [] s2).2) := by
  intro url s1 s2 h0 h12 h100
  have htypo : typoCond [] = false := rfl
  unfold applySafetyGates
  simp only [htypo, Bool.false_eq_true, if_false]
  have hfail : countFailures (lowerStr (hostnameOf url)) [] = 0 := rfl
  simp only [hfail, scoreAfterFailures]
  norm_num
  cases hp : phishCond (lowerStr (hostnameOf url)) with
  | false =>
    simp only [hp, Bool.false_eq_true, if_false]
    exact finalBadge_zero_idx_mono _ (clamp_mono h12)
  | true =>
    simp only [hp, if_true]
    exact finalBadge_zero_idx_mono _ (clamp_mono (by linarith))

/-- C9 witness: monotonicity at the concrete pair 10 ≤ 50. -/
theorem c9_badge_monotone_empty_reasons_witness :
    badgeIndex ((applySafetyGates ("https://example.com") [] 10).2) ≤
      badgeIndex ((applySafetyGates ("https://example.com") [] 50).2) :=
  c9_badge_monotone_empty_reasons ("https://example.com") 10 50
    (by norm_num) (by norm_num) (by norm_num)

/-- C3 counterexample: the claim's marker vocabulary includes
"not found", which the gate does not recognise. A reason whose message
is "Page not found" counts as a failure under the claim's vocabulary but
not under the gate's, and the gate consequently still returns
"Verified Safe" where the claimed Caution floor would forbid it. -/
theorem c3_counterexample_marker_vocabulary :
    claimFailCountC3 ("shop.example.com")
        [⟨"content_ux", "Page not found", 0.10, 30⟩] = 1 ∧
    countFailures ("shop.example.com")
        [⟨"content_ux", "Page not found", 0.10, 30⟩] = 0 ∧
    (applySafetyGates ("https://shop.example.com")
        [⟨"content_ux", "Page not found", 0.10, 30⟩] 0).2 = "Verified Safe" := by
  decide

/-- C3 (amended): with the code's marker vocabulary ("timed out",
"could not fetch", "failed", "not html", "no ssl", "certificate
verification failed"): the gate's failure count equals the number of
reasons (excluding merchant-verification reasons on allow-listed hosts)
whose lowered message contains a marker; the failure floor is "Caution"
exactly when the count is at least 1 and not exempted (exactly 1 failure
on an allow-listed host); a count of at least 3 adds 20 to the score;
and a count of at least 1 without the exemption forces the final badge
to severity at least "Caution". -/
theorem c3_amended_failure_rules :
    (∀ host reasons, countFailures host reasons = specFailCount host reasons) ∧
    (∀ (v : Bool) (f : Nat),
      failuresFloor v f =
        if 1 ≤ f ∧ ¬(v = true ∧ f = 1) then "Caution" else "Verified Safe") ∧
    (∀ (raw : ℚ) (f : Nat), 3 ≤ f → scoreAfterFailures raw f = raw + 20) ∧
    (∀ (url : String) (reasons : List ReasonD) (raw : ℚ),
      1 ≤ countFailures (lowerStr (hostnameOf url)) reasons →
      ¬(isVerifiedHost (lowerStr (hostnameOf url)) = true ∧
          countFailures (lowerStr (hostnameOf url)) reasons = 1) →
      badgeIndex ("Caution") ≤ badgeIndex ((applySafetyGates url reasons raw).2)) := by
  refine ⟨?_, ?_, ?_, ?_⟩
  · intro host reasons
    unfold countFailures specFailCount
    rw [List.countP_eq_length_filter]
    refine congrArg List.length (List.filter_congr ?_)
    intro r _
    cases hb : (isVerifiedHost host && r.layer == "merchant_verification") <;> simp [hb]
  · intro v f
    unfold failuresFloor
    by_cases h1 : 1 ≤ f
    · rw [if_pos h1]
      by_cases h2 : v = true ∧ f = 1
      · rw [if_pos (by simp [h2.1, h2.2]),
          if_neg (show ¬(1 ≤ f ∧ ¬(v = true ∧ f = 1)) from fun hh => hh.2 h2)]
      · rw [if_neg (by simp [and_beq_one_false h2]),
          if_pos (show 1 ≤ f ∧ ¬(v = true ∧ f = 1) from ⟨h1, h2⟩)]
    · rw [if_neg h1, if_neg (show ¬(1 ≤ f ∧ ¬(v = true ∧ f = 1)) from fun hh => h1 hh.1)]
  · intro raw f h
    unfold scoreAfterFailures
    rw [if_pos h]
  · intro url reasons raw h1 h2
    unfold applySafetyGates
    have hfloor : failuresFloor (isVerifiedHost (lowerStr (hostnameOf url)))
        (countFailures (lowerStr (hostnameOf url)) reasons) = "Caution" := by
      unfold failuresFloor
      rw [if_pos h1, if_neg (by simp [and_beq_one_false h2])]
    rw [finalBadge_pos_idx _ _ _ (fun hh => absurd hh.1 (by omega))]
    refine le_trans ?_ (le_max_right _ _)
    split_ifs <;> (try rw [hfloor]) <;> decide

/-- C3 witness: the amended rules at concrete inputs: one
"fetch timed out" reason on a non-allow-listed host makes the count 1
and forces badge severity at least "Caution". -/
theorem c3_amended_failure_rules_witness :
    countFailures ("x.com") [⟨"content_ux", "fetch timed out", 0.10, 30⟩] =
      specFailCount ("x.com") [⟨"content_ux", "fetch timed out", 0.10, 30⟩] ∧
    failuresFloor true 1 = "Verified Safe" ∧
    scoreAfterFailures 7 3 = 7 + 20 ∧
    badgeIndex ("Caution") ≤ badgeIndex ((applySafetyGates ("https://x.com")
      [⟨"content_ux", "fetch timed out", 0.10, 30⟩] 0).2) :=
  ⟨c3_amended_failure_rules.1 ("x.com") [⟨"content_ux", "fetch timed out", 0.10, 30⟩],
   by rw [c3_amended_failure_rules.2.1 true 1]; decide,
   c3_amended_failure_rules.2.2.1 7 3 (by norm_num),
   c3_amended_failure_rules.2.2.2 ("https://x.com")
     [⟨"content_ux", "fetch timed out", 0.10, 30⟩] 0 (by decide) (by decide)⟩

/-- C2 (amended): the check-site pipeline applies the safety gate twice:
`evaluate_all` returns the gate applied once to the clamped weighted raw
score, and `check_site` applies the gate again to that already-gated
score, so the returned score and badge are the double application. -/
theorem c2_amended_double_gate : ∀ (url : String) (d c v t b tech merchant fb : LayerResult),
    evaluateAllCore url d c v t b tech merchant fb =
      ((applySafetyGates url (partsOf d c v t b tech merchant fb)
          (rawTotal d c v t b tech merchant fb)).1,
        partsOf d c v t b tech merchant fb) ∧
    checkSiteOutcome url d c v t b tech merchant fb =
      applySafetyGates url (partsOf d c v t b tech merchant fb)
        ((applySafetyGates url (partsOf d c v t b tech merchant fb)
            (rawTotal d c v t b tech merchant fb)).1) :=
  fun _ _ _ _ _ _ _ _ _ => ⟨rfl, rfl⟩

/-- C2 counterexample: with a phishing-token host (refund.example.com)
and all-zero benign layers, the pipeline's returned result (score 50,
badge "High Risk") is not the single application of the gate to the
clamped weighted raw score (score 25, badge "Caution"): the +25
adjustment is applied twice. -/
theorem c2_counterexample_not_single_gate :
    checkSiteOutcome ("https://refund.example.com") ⟨0, "ok"⟩ ⟨0, "ok"⟩ ⟨0, "ok"⟩ ⟨0, "ok"⟩
        ⟨0, "ok"⟩ ⟨0, "ok"⟩ ⟨0, "ok"⟩ ⟨0, "ok"⟩ ≠
      applySafetyGates ("https://refund.example.com")
        (partsOf ⟨0, "ok"⟩ ⟨0, "ok"⟩ ⟨0, "ok"⟩ ⟨0, "ok"⟩ ⟨0, "ok"⟩ ⟨0, "ok"⟩ ⟨0, "ok"⟩ ⟨0, "ok"⟩)
        (rawTotal ⟨0, "ok"⟩ ⟨0, "ok"⟩ ⟨0, "ok"⟩ ⟨0, "ok"⟩ ⟨0, "ok"⟩ ⟨0, "ok"⟩ ⟨0, "ok"⟩
          ⟨0, "ok"⟩) := by
  have h1 : checkSiteOutcome ("https://refund.example.com") ⟨0, "ok"⟩ ⟨0, "ok"⟩ ⟨0, "ok"⟩
      ⟨0, "ok"⟩ ⟨0, "ok"⟩ ⟨0, "ok"⟩ ⟨0, "ok"⟩ ⟨0, "ok"⟩ = (50, "High Risk") := by
    with_unfolding_all rfl
  have h2 : applySafetyGates ("https://refund.example.com")
      (partsOf ⟨0, "ok"⟩ ⟨0, "ok"⟩ ⟨0, "ok"⟩ ⟨0, "ok"⟩ ⟨0, "ok"⟩ ⟨0, "ok"⟩ ⟨0, "ok"⟩ ⟨0, "ok"⟩)
      (rawTotal ⟨0, "ok"⟩ ⟨0, "ok"⟩ ⟨0, "ok"⟩ ⟨0, "ok"⟩ ⟨0, "ok"⟩ ⟨0, "ok"⟩ ⟨0, "ok"⟩
        ⟨0, "ok"⟩) = (25, "Caution") := by
    with_unfolding_all rfl
  rw [h1, h2]
  exact fun h => absurd (congrArg Prod.snd h) (by decide)

/-- C8 counterexample: on the allow-listed host amazon.com with zero
prior feedback (and every network layer as favourable as possible), the
end-to-end pipeline does return the badge "Verified Safe", but the score
is not 0: with no threat-intel API configured that layer contributes
10 × 0.12 and the zero-feedback layer contributes 5 × 0.05. -/
theorem c8_counterexample_score_not_zero :
    (checkSiteOutcome ("https://amazon.com") (domainVerifiedResult ("amazon.com"))
        ⟨0, "ok"⟩ ⟨0, "ok"⟩ threatNoConfigResult ⟨0, "ok"⟩ ⟨0, "ok"⟩
        (merchantVerifiedResult ("amazon.com")) feedbackNoRecordsResult).2 =
      "Verified Safe" ∧
    (checkSiteOutcome ("https://amazon.com") (domainVerifiedResult ("amazon.com"))
        ⟨0, "ok"⟩ ⟨0, "ok"⟩ threatNoConfigResult ⟨0, "ok"⟩ ⟨0, "ok"⟩
        (merchantVerifiedResult ("amazon.com")) feedbackNoRecordsResult).1 ≠ 0 := by
  have h : checkSiteOutcome ("https://amazon.com") (domainVerifiedResult ("amazon.com"))
      ⟨0, "ok"⟩ ⟨0, "ok"⟩ threatNoConfigResult ⟨0, "ok"⟩ ⟨0, "ok"⟩
      (merchantVerifiedResult ("amazon.com")) feedbackNoRecordsResult =
      (29 / 20, "Verified Safe") := by
    with_unfolding_all rfl
  rw [h]
  exact ⟨rfl, by norm_num⟩

/-- C8 (amended): in that scenario the end-to-end evaluation returns the
badge "Verified Safe" with score 29/20 = 1.45 (the threat-intel
no-configuration score 10 times weight 0.12 plus the zero-feedback score
5 times weight 0.05), not 0. -/
theorem c8_amended_verified_safe_nonzero_score :
    checkSiteOutcome ("https://amazon.com") (domainVerifiedResult ("amazon.com"))
        ⟨0, "ok"⟩ ⟨0, "ok"⟩ threatNoConfigResult ⟨0, "ok"⟩ ⟨0, "ok"⟩
        (merchantVerifiedResult ("amazon.com")) feedbackNoRecordsResult =
      (29 / 20, "Verified Safe") := by
  with_unfolding_all rfl
